import Mathlib

/-!
Shallow embedding of the trip-management backend (`server/routes.ts` and
`server/storage.ts`): the trip data model, the trip-ledger storage operations,
the create/update route handlers with their authorization rules and balance
recomputation, the login verification callback, and the motor-owner analytics
aggregation. Amount columns are decimal-formatted text in the database; they
are represented here by their exact rational values.
-/

namespace TMS

/-- Caller roles (`ROLES` in the shared schema; spec section 3). -/
inductive Role where
  | ADMIN
  | MANAGER
deriving DecidableEq, Repr

/-- Modelled from the spec: the trip status enum (`TRIP_STATUS`, shared schema
not under `src/`). The spec names the lifecycle `PENDING -> ... -> COMPLETED ->
SETTLED`; `IN_TRANSIT` stands for the unnamed intermediate states, which every
rule here treats like `PENDING`. -/
inductive TripStatus where
  | PENDING
  | IN_TRANSIT
  | COMPLETED
  | SETTLED
deriving DecidableEq, Repr

/-- Modelled from the spec: the vehicle type enum, "including `MARKET` for
hired vehicles"; `OWNED` stands for the non-market alternative. -/
inductive VehicleType where
  | OWNED
  | MARKET
deriving DecidableEq, Repr

/-- Modelled from the spec: financial amounts travel and persist as
decimal-formatted text (spec section 4.3). A decimal text is a nonempty string
and is represented here by its exact rational value; `none` is SQL `NULL` (or
an absent optional field). Because a decimal text is nonempty, a present
amount is always truthy in the JavaScript sense. -/
abbrev Cell := Option ℚ

/-- JavaScript `Number(x || 0)` on a nullable decimal text: `NULL` is falsy
and yields `0`; a decimal text yields its numeric value. -/
def jsOr0 (c : Cell) : ℚ := c.getD 0

/-- JavaScript `a ?? b`: the left value unless it is nullish. -/
def coalesce {α : Type} (a b : Option α) : Option α :=
  match a with
  | some v => some v
  | none => b

/-- A stored trip row (spec section 3; columns as used by `routes.ts` and
`storage.ts`). Loading dates are modelled as integers: the code compares
ISO-8601 date texts, whose lexicographic order agrees with chronological
order. -/
structure Trip where
  id : Nat
  tripId : String
  vehicleNumber : String
  vehicleType : VehicleType
  loadingDate : Int
  status : TripStatus
  partyName : Option String
  partyFreight : Cell
  partyAdvance : Cell
  partyBalance : Cell
  motorOwnerName : Option String
  motorOwnerBhada : Cell
  motorOwnerAdvance : Cell
  motorOwnerBalance : Cell
deriving DecidableEq, Repr

/-- Filter set accepted by `DatabaseStorage.getTrips` (`storage.ts` 50-55). -/
structure TripFilters where
  vehicleNumber : Option String
  tripId : Option String
  loadedAfter : Option Int
  settled : Option Bool
deriving DecidableEq, Repr

/-- The absent filter set: `storage.getTrips()` called with no argument. -/
def TripFilters.empty : TripFilters := ⟨none, none, none, none⟩

/-- Boolean test that the pattern starts the character list. -/
def charsStartWith : List Char → List Char → Bool
  | [], _ => true
  | _ :: _, [] => false
  | c :: cs, d :: ds => c == d && charsStartWith cs ds

/-- Boolean test that the pattern occurs somewhere inside the character
list. -/
def charsContain (pat : List Char) : List Char → Bool
  | [] => pat.isEmpty
  | d :: ds => charsStartWith pat (d :: ds) || charsContain pat ds

/-- SQL `column ILIKE '%pat%'`: case-insensitive substring match. -/
def ilike (s pat : String) : Bool :=
  charsContain pat.toLower.data s.toLower.data

/-- Condition pushed for a supplied vehicle-number filter (`storage.ts`
58-60); an absent filter contributes no condition. -/
def vehicleCond (f : TripFilters) (t : Trip) : Bool :=
  match f.vehicleNumber with
  | some v => ilike t.vehicleNumber v
  | none => true

/-- Condition pushed for a supplied trip-code filter (`storage.ts` 62-64). -/
def tripIdCond (f : TripFilters) (t : Trip) : Bool :=
  match f.tripId with
  | some v => ilike t.tripId v
  | none => true

/-- Condition pushed for a supplied loaded-after filter (`storage.ts`
66-68). -/
def loadedAfterCond (f : TripFilters) (t : Trip) : Bool :=
  match f.loadedAfter with
  | some d => decide (d ≤ t.loadingDate)
  | none => true

/-- Condition pushed for a supplied settlement filter (`storage.ts` 70-74):
`true` keeps only `SETTLED` rows, `false` keeps only non-`SETTLED` rows. -/
def settledCond (f : TripFilters) (t : Trip) : Bool :=
  match f.settled with
  | some true => decide (t.status = TripStatus.SETTLED)
  | some false => !decide (t.status = TripStatus.SETTLED)
  | none => true

/-- Conjunction of every supplied condition (`and(...conditions)`). -/
def matchesFilters (f : TripFilters) (t : Trip) : Bool :=
  vehicleCond f t && tripIdCond f t && loadedAfterCond f t && settledCond f t

/-- Order used by `getTrips`: most recent loading date first
(`orderBy(desc(trips.loadingDate))`). -/
def byDateDesc : Trip → Trip → Prop := fun a b => b.loadingDate ≤ a.loadingDate

instance : DecidableRel byDateDesc := fun a b => Int.decLe b.loadingDate a.loadingDate

instance : IsTotal Trip byDateDesc := ⟨fun a b => le_total b.loadingDate a.loadingDate⟩

instance : IsTrans Trip byDateDesc := ⟨fun _ _ _ h1 h2 => le_trans h2 h1⟩

/-- Embedding of `DatabaseStorage.getTrips` (`storage.ts` 50-80): keep the rows passing
every supplied condition, ordered by loading date, most recent first. -/
def getTrips (db : List Trip) (f : TripFilters) : List Trip :=
  List.insertionSort byDateDesc (db.filter (matchesFilters f))

/-- Embedding of `DatabaseStorage.getTrip` (`storage.ts` 82-85). -/
def getTrip (db : List Trip) (id : Nat) : Option Trip :=
  db.find? (fun t => t.id == id)

/-- Next primary key for an insert (database-assigned serial column). -/
def nextId (db : List Trip) : Nat := (db.map Trip.id).foldr max 0 + 1

/-- Insert payload of `createTrip`: every trip column except the
database-assigned primary key. -/
structure NewTrip where
  tripId : String
  vehicleNumber : String
  vehicleType : VehicleType
  loadingDate : Int
  status : TripStatus
  partyName : Option String
  partyFreight : Cell
  partyAdvance : Cell
  partyBalance : Cell
  motorOwnerName : Option String
  motorOwnerBhada : Cell
  motorOwnerAdvance : Cell
  motorOwnerBalance : Cell
deriving DecidableEq, Repr

/-- Embedding of `DatabaseStorage.createTrip` (`storage.ts` 87-90): insert and return the
stored row with its assigned identifier. -/
def createTrip (db : List Trip) (n : NewTrip) : List Trip × Trip :=
  let t : Trip :=
    { id := nextId db
      tripId := n.tripId
      vehicleNumber := n.vehicleNumber
      vehicleType := n.vehicleType
      loadingDate := n.loadingDate
      status := n.status
      partyName := n.partyName
      partyFreight := n.partyFreight
      partyAdvance := n.partyAdvance
      partyBalance := n.partyBalance
      motorOwnerName := n.motorOwnerName
      motorOwnerBhada := n.motorOwnerBhada
      motorOwnerAdvance := n.motorOwnerAdvance
      motorOwnerBalance := n.motorOwnerBalance }
  (db ++ [t], t)

/-- The column/value object passed to `db.update(trips).set(...)` by the
update route: a present field overwrites the stored column, an absent field
leaves it alone. The route always sets the two balance columns (the
`...input` spread followed by the `motorOwnerBalance` and `partyBalance`
keys), so those carry a definite value here. -/
structure TripSet where
  vehicleNumber : Option String
  vehicleType : Option VehicleType
  loadingDate : Option Int
  status : Option TripStatus
  partyName : Option String
  partyFreight : Option ℚ
  partyAdvance : Option ℚ
  motorOwnerName : Option String
  motorOwnerBhada : Option ℚ
  motorOwnerAdvance : Option ℚ
  motorOwnerBalance : Cell
  partyBalance : Cell
deriving DecidableEq, Repr

/-- Effect of `db.update(trips).set(s)` on one stored row. -/
def applySet (t : Trip) (s : TripSet) : Trip :=
  { id := t.id
    tripId := t.tripId
    vehicleNumber := s.vehicleNumber.getD t.vehicleNumber
    vehicleType := s.vehicleType.getD t.vehicleType
    loadingDate := s.loadingDate.getD t.loadingDate
    status := s.status.getD t.status
    partyName := coalesce s.partyName t.partyName
    partyFreight := coalesce s.partyFreight t.partyFreight
    partyAdvance := coalesce s.partyAdvance t.partyAdvance
    partyBalance := s.partyBalance
    motorOwnerName := coalesce s.motorOwnerName t.motorOwnerName
    motorOwnerBhada := coalesce s.motorOwnerBhada t.motorOwnerBhada
    motorOwnerAdvance := coalesce s.motorOwnerAdvance t.motorOwnerAdvance
    motorOwnerBalance := s.motorOwnerBalance }

/-- Embedding of `DatabaseStorage.updateTrip` (`storage.ts` 92-98): update every row with
the given id and return the updated row; when no row matches, the query
returns no row and the function yields `undefined`, modelled as `none`. -/
def updateTrip (db : List Trip) (id : Nat) (s : TripSet) : List Trip × Option Trip :=
  let db2 := db.map fun t => if t.id == id then applySet t s else t
  (db2, db2.find? (fun t => t.id == id))

/-- One row of the motor-owner analytics response. -/
structure MotorOwnerRow where
  name : String
  tripsDone : Nat
  totalBhada : ℚ
  paid : ℚ
  balance : ℚ
deriving DecidableEq, Repr

/-- JavaScript `r.name || 'Unknown'` (`storage.ts` 169): a `NULL` or empty
owner name is reported under the literal label `"Unknown"`. -/
def ownerLabel (n : Option String) : String :=
  match n with
  | some s => if s = "" then "Unknown" else s
  | none => "Unknown"

/-- The `MARKET` restriction of the motor-owner query (`storage.ts` 165). -/
def marketTrips (db : List Trip) : List Trip :=
  db.filter fun t => decide (t.vehicleType = VehicleType.MARKET)

/-- Aggregates of one `GROUP BY motorOwnerName` group (`storage.ts` 157-174).
SQL `sum` over a decimal column ignores `NULL`s, and an all-`NULL` sum becomes
`0` through the `Number(...)` conversion, which coincides with summing each
value read as `Number(x || 0)`. -/
def ownerRow (market : List Trip) (n : Option String) : MotorOwnerRow :=
  let g := market.filter fun t => t.motorOwnerName == n
  { name := ownerLabel n
    tripsDone := g.length
    totalBhada := (g.map fun t => jsOr0 t.motorOwnerBhada).sum
    paid := (g.map fun t => jsOr0 t.motorOwnerAdvance).sum
    balance := (g.map fun t => jsOr0 t.motorOwnerBalance).sum }

/-- Embedding of `DatabaseStorage.getMotorOwnerAnalytics` (`storage.ts` 156-175): restrict
to `MARKET` trips, then one aggregate row per distinct owner name. -/
def getMotorOwnerAnalytics (db : List Trip) : List MotorOwnerRow :=
  ((marketTrips db).map Trip.motorOwnerName).dedup.map (ownerRow (marketTrips db))

/-- Parsed body of the create-trip route (`api.trips.create.input`; the zod
schema lives outside `src/`). Modelled from the spec: financial fields are
optional decimal texts, and the caller may also send balance fields, which the
handler overrides. -/
structure CreateInput where
  vehicleNumber : String
  vehicleType : VehicleType
  loadingDate : Int
  status : TripStatus
  partyName : Option String
  partyFreight : Option ℚ
  partyAdvance : Option ℚ
  partyBalance : Option ℚ
  motorOwnerName : Option String
  motorOwnerBhada : Option ℚ
  motorOwnerAdvance : Option ℚ
  motorOwnerBalance : Option ℚ
deriving DecidableEq, Repr

/-- The `...input, tripId, motorOwnerBalance, partyBalance` object literal of
the create handler (`routes.ts` 160-165): the spread of the parsed input with
the generated trip code and the two recomputed balances written over whatever
balance fields the input carried. -/
def CreateInput.withOverrides (i : CreateInput) (tripId : String)
    (motorOwnerBalance partyBalance : Cell) : NewTrip :=
  { tripId := tripId
    vehicleNumber := i.vehicleNumber
    vehicleType := i.vehicleType
    loadingDate := i.loadingDate
    status := i.status
    partyName := i.partyName
    partyFreight := i.partyFreight
    partyAdvance := i.partyAdvance
    partyBalance := partyBalance
    motorOwnerName := i.motorOwnerName
    motorOwnerBhada := i.motorOwnerBhada
    motorOwnerAdvance := i.motorOwnerAdvance
    motorOwnerBalance := motorOwnerBalance }

/-- Outcome of the create-trip route. -/
inductive CreateResult where
  | unauthenticated
  | created (t : Trip)
deriving DecidableEq, Repr

/-- HTTP status code of a create outcome (`requireAuth` answers 401; the
handler answers `res.status(201)`). -/
def CreateResult.statusCode : CreateResult → Nat
  | .unauthenticated => 401
  | .created _ => 201

/-- POST create-trip handler (`routes.ts` 147-176) behind `requireAuth`:
generate the trip code from the current year and the count of all existing
trips plus one, recompute both balances from the payload (absent inputs read
as zero), and insert. No role is consulted on this path. -/
def createTripHandler (db : List Trip) (caller : Option Role) (year : Nat)
    (input : CreateInput) : CreateResult × List Trip :=
  match caller with
  | none => (.unauthenticated, db)
  | some _ =>
    let count := (getTrips db TripFilters.empty).length + 1
    let tripId := toString year ++ "_" ++ toString count
    let motorOwnerBalance : Cell :=
      some (jsOr0 input.motorOwnerBhada - jsOr0 input.motorOwnerAdvance)
    let partyBalance : Cell :=
      some (jsOr0 input.partyFreight - jsOr0 input.partyAdvance)
    let ins := createTrip db (input.withOverrides tripId motorOwnerBalance partyBalance)
    (.created ins.2, ins.1)

/-- Parsed body of the update-trip route (`api.trips.update.input`; the zod
schema lives outside `src/`). Modelled from the spec: a partial record — every
field optional, the trip code excluded ("assigned exactly once, at creation,
never reused or reassigned"); balance fields may be sent but are overridden. -/
structure UpdateInput where
  vehicleNumber : Option String
  vehicleType : Option VehicleType
  loadingDate : Option Int
  status : Option TripStatus
  partyName : Option String
  partyFreight : Option ℚ
  partyAdvance : Option ℚ
  partyBalance : Option ℚ
  motorOwnerName : Option String
  motorOwnerBhada : Option ℚ
  motorOwnerAdvance : Option ℚ
  motorOwnerBalance : Option ℚ
deriving DecidableEq, Repr

/-- The `...input, motorOwnerBalance, partyBalance` object literal of the
update handler (`routes.ts` 212-216): the spread of the parsed input with the
two balance keys written over whatever balance fields the input carried. -/
def UpdateInput.withBalances (i : UpdateInput)
    (motorOwnerBalance partyBalance : Cell) : TripSet :=
  { vehicleNumber := i.vehicleNumber
    vehicleType := i.vehicleType
    loadingDate := i.loadingDate
    status := i.status
    partyName := i.partyName
    partyFreight := i.partyFreight
    partyAdvance := i.partyAdvance
    motorOwnerName := i.motorOwnerName
    motorOwnerBhada := i.motorOwnerBhada
    motorOwnerAdvance := i.motorOwnerAdvance
    motorOwnerBalance := motorOwnerBalance
    partyBalance := partyBalance }

/-- Outcome of the update-trip route. `okEmpty` is the response when the
update query returned no row (`res.json(undefined)`, still HTTP 200); it is
unreachable because the handler has just found the row. -/
inductive UpdateResult where
  | unauthenticated
  | notFound
  | forbiddenStatus
  | forbiddenBhada
  | ok (t : Trip)
  | okEmpty
deriving DecidableEq, Repr

/-- HTTP status code of an update outcome: 401 from `requireAuth`, 404 for a
missing trip, 403 for either policy rejection, 200 otherwise. -/
def UpdateResult.statusCode : UpdateResult → Nat
  | .unauthenticated => 401
  | .notFound => 404
  | .forbiddenStatus => 403
  | .forbiddenBhada => 403
  | .ok _ => 200
  | .okEmpty => 200

/-- Balance recomputation of the update handler for the motor-owner side
(`routes.ts` 198-203): recompute only when the payload carries a bhada or an
advance value (a present decimal text is truthy), each operand falling back to
the stored value through `??`; otherwise carry the stored balance forward. -/
def nextMotorOwnerBalance (input : UpdateInput) (existingTrip : Trip) : Cell :=
  if input.motorOwnerBhada.isSome || input.motorOwnerAdvance.isSome then
    some (jsOr0 (coalesce input.motorOwnerBhada existingTrip.motorOwnerBhada) -
      jsOr0 (coalesce input.motorOwnerAdvance existingTrip.motorOwnerAdvance))
  else existingTrip.motorOwnerBalance

/-- Balance recomputation of the update handler for the party side
(`routes.ts` 205-210). -/
def nextPartyBalance (input : UpdateInput) (existingTrip : Trip) : Cell :=
  if input.partyFreight.isSome || input.partyAdvance.isSome then
    some (jsOr0 (coalesce input.partyFreight existingTrip.partyFreight) -
      jsOr0 (coalesce input.partyAdvance existingTrip.partyAdvance))
  else existingTrip.partyBalance

/-- PUT update-trip handler (`routes.ts` 178-227) behind `requireAuth`: 404
when the trip does not exist; 403 for a non-admin when the stored status is
`COMPLETED` or `SETTLED`; 403 for a non-admin whose payload carries a
`motorOwnerBhada` value; otherwise recompute the balances and store the
merge. -/
def updateTripHandler (db : List Trip) (caller : Option Role) (id : Nat)
    (input : UpdateInput) : UpdateResult × List Trip :=
  match caller with
  | none => (.unauthenticated, db)
  | some role =>
    match getTrip db id with
    | none => (.notFound, db)
    | some existingTrip =>
      if role ≠ Role.ADMIN ∧
          (existingTrip.status = TripStatus.COMPLETED ∨
            existingTrip.status = TripStatus.SETTLED) then
        (.forbiddenStatus, db)
      else if role ≠ Role.ADMIN ∧ input.motorOwnerBhada.isSome then
        (.forbiddenBhada, db)
      else
        let motorOwnerBalance := nextMotorOwnerBalance input existingTrip
        let partyBalance := nextPartyBalance input existingTrip
        let upd := updateTrip db id (input.withBalances motorOwnerBalance partyBalance)
        match upd.2 with
        | some t => (.ok t, upd.1)
        | none => (.okEmpty, upd.1)

/-- A stored user record (spec section 3); the credential is stored as
`salt:hexDerivedKey`. -/
structure User where
  id : Nat
  username : String
  password : String
  name : String
  role : Role
deriving DecidableEq, Repr

/-- JavaScript `String.split` on a one-character separator, character by
character. -/
def splitChars (sep : Char) : List Char → List (List Char)
  | [] => [[]]
  | c :: cs =>
    let r := splitChars sep cs
    if c == sep then [] :: r
    else
      match r with
      | [] => [[c]]
      | h :: t => (c :: h) :: t

/-- JavaScript `s.split(sep)` for a one-character separator. -/
def jsSplit (s : String) (sep : Char) : List String :=
  (splitChars sep s.data).map fun l => String.mk l

/-- Embedding of `comparePasswords` (`routes.ts` 23-27): split the stored credential into
salt and derived key, recompute the key from the supplied password with the
key-derivation function `kdf` (scrypt, an external primitive, abstracted as a
function parameter), and compare the two keys. -/
def comparePasswords (kdf : String → String → String)
    (supplied stored : String) : Bool :=
  let parts := jsSplit stored ':'
  let salt := parts.headD ""
  let key := parts.getD 1 ""
  kdf supplied salt == key

/-- Outcome of the `LocalStrategy` verify callback: `done(null, false, info)`
or `done(null, user)`. -/
inductive AuthOutcome where
  | failed (message : String)
  | success (user : User)
deriving DecidableEq, Repr

/-- Boolean test that a verify outcome is a failure. -/
def AuthOutcome.isFail : AuthOutcome → Bool
  | .failed _ => true
  | .success _ => false

/-- The `LocalStrategy` verify callback (`routes.ts` 55-69): an unknown
username and a wrong password both yield a failure, differing only in the
internal info message. -/
def verifyLocal (kdf : String → String → String) (userdb : List User)
    (username password : String) : AuthOutcome :=
  match userdb.find? (fun u => u.username == username) with
  | none => .failed "Incorrect username."
  | some user =>
    if comparePasswords kdf password user.password then .success user
    else .failed "Incorrect password."

/-- An HTTP login response together with the session it establishes. -/
structure LoginResponse where
  statusCode : Nat
  body : Option User
  session : Option Nat
deriving DecidableEq, Repr

/-- The login route (`routes.ts` 101-103). Modelled from the spec for the
middleware part: `passport.authenticate` (an external collaborator) answers a
bare `401 Unauthorized` on any verify failure, dropping the strategy's info
message; on success the route answers 200 with the user record, and the
session holds the serialized user id (`serializeUser`, `routes.ts` 71-73). -/
def loginHandler (kdf : String → String → String) (userdb : List User)
    (username password : String) : LoginResponse :=
  match verifyLocal kdf userdb username password with
  | .success u => { statusCode := 200, body := some u, session := some u.id }
  | .failed _ => { statusCode := 401, body := none, session := none }

/-- Balance invariant of the spec (section 3): each stored balance equals the
gross amount minus the advance, an absent amount reading as zero. -/
def balInv (t : Trip) : Prop :=
  jsOr0 t.partyBalance = jsOr0 t.partyFreight - jsOr0 t.partyAdvance ∧
  jsOr0 t.motorOwnerBalance = jsOr0 t.motorOwnerBhada - jsOr0 t.motorOwnerAdvance

/-- Operand of a balance recomputation, in the spec's words: the supplied new
value when present, else the existing stored value (an absent stored amount
reading as zero). -/
def operand (new : Option ℚ) (stored : Cell) : ℚ :=
  match new with
  | some v => v
  | none => jsOr0 stored

/-- Sample `MARKET` trip used by the concrete witnesses. -/
def tripA : Trip :=
  { id := 1
    tripId := "2025_1"
    vehicleNumber := "MH12AB"
    vehicleType := .MARKET
    loadingDate := 10
    status := .PENDING
    partyName := some "PartyOne"
    partyFreight := some 1000
    partyAdvance := some 200
    partyBalance := some 800
    motorOwnerName := some "OwnerOne"
    motorOwnerBhada := some 100
    motorOwnerAdvance := some 40
    motorOwnerBalance := some 60 }

/-- Sample settled non-market trip used by the concrete witnesses. -/
def tripB : Trip :=
  { id := 2
    tripId := "2025_2"
    vehicleNumber := "MH14CD"
    vehicleType := .OWNED
    loadingDate := 20
    status := .SETTLED
    partyName := some "PartyTwo"
    partyFreight := some 500
    partyAdvance := some 0
    partyBalance := some 500
    motorOwnerName := none
    motorOwnerBhada := none
    motorOwnerAdvance := none
    motorOwnerBalance := none }

/-- Sample `MARKET` trip without an owner name, used by the concrete
witnesses. -/
def tripC : Trip :=
  { id := 3
    tripId := "2025_3"
    vehicleNumber := "MH16EF"
    vehicleType := .MARKET
    loadingDate := 5
    status := .COMPLETED
    partyName := some "PartyOne"
    partyFreight := some 700
    partyAdvance := some 100
    partyBalance := some 600
    motorOwnerName := none
    motorOwnerBhada := some 300
    motorOwnerAdvance := some 100
    motorOwnerBalance := some 200 }

/-- The empty partial update payload. -/
def noUpdate : UpdateInput :=
  ⟨none, none, none, none, none, none, none, none, none, none, none, none⟩

/-- Sample create payload used by the concrete witnesses. -/
def sampleCreate : CreateInput :=
  { vehicleNumber := "MH18GH"
    vehicleType := .MARKET
    loadingDate := 30
    status := .PENDING
    partyName := some "PartyThree"
    partyFreight := some 900
    partyAdvance := some 150
    partyBalance := some 42
    motorOwnerName := some "OwnerTwo"
    motorOwnerBhada := some 400
    motorOwnerAdvance := some 50
    motorOwnerBalance := some 7 }

/-- Sample key-derivation function for the concrete witnesses: salt followed
by the password. -/
def kdf0 : String → String → String := fun p s => s ++ p

/-- Sample user store: one admin whose correct password under `kdf0` is
`"pw"` (stored credential `"ab:abpw"`). -/
def userAdmin : User :=
  { id := 1, username := "admin", password := "ab:abpw", name := "System Admin", role := .ADMIN }

/-- The trip stored by a successful create against `db` in `year` (see
`createTripHandler_some`). -/
def createdTrip (db : List Trip) (year : Nat) (input : CreateInput) : Trip :=
  (createTrip db (input.withOverrides
    (toString year ++ "_" ++ toString (db.length + 1))
    (some (jsOr0 input.motorOwnerBhada - jsOr0 input.motorOwnerAdvance))
    (some (jsOr0 input.partyFreight - jsOr0 input.partyAdvance)))).2

/-- Update payload supplying only a motor-owner advance of `10`. -/
def advOnly : UpdateInput := { noUpdate with motorOwnerAdvance := some 10 }

/-- The set object the update handler builds for `advOnly` against `tripA`. -/
def advOnlySet : TripSet :=
  advOnly.withBalances (nextMotorOwnerBalance advOnly tripA) (nextPartyBalance advOnly tripA)

/-- Result trip: `tripA` as stored after the handler applies `advOnly`. -/
def tripA10 : Trip := applySet tripA advOnlySet

/-- Update payload supplying only a motor-owner bhada of `5`. -/
def bhadaOnly : UpdateInput := { noUpdate with motorOwnerBhada := some 5 }

/-- The trip stored by a first create against an empty ledger in 2025. -/
def wCreate1 : Trip := createdTrip [] 2025 sampleCreate

/-- The ledger after that first create. -/
def wDb1 : List Trip := [wCreate1]

/-- The trip stored by a second, sequential create in the same year. -/
def wCreate2 : Trip := createdTrip wDb1 2025 sampleCreate

/-!  Helper lemmas about the ledger operations. -/

theorem operand_eq (new : Option ℚ) (stored : Cell) :
    operand new stored = jsOr0 (coalesce new stored) := by
  cases new <;> rfl

theorem applySet_preserves_id (t : Trip) (s : TripSet) : (applySet t s).id = t.id := rfl

theorem getTrip_cons (a : Trip) (l : List Trip) (id : Nat) :
    getTrip (a :: l) id = if (a.id == id) = true then some a else getTrip l id := by
  cases h : (a.id == id) <;> simp [getTrip, List.find?_cons, h]

theorem updateTrip_cons_pos (a : Trip) (l : List Trip) (id : Nat) (s : TripSet)
    (h : (a.id == id) = true) :
    updateTrip (a :: l) id s =
      (applySet a s :: (updateTrip l id s).1, some (applySet a s)) := by
  have hp : a.id = id := by simpa using h
  simp [updateTrip, List.find?_cons, hp, applySet_preserves_id, -List.find?_map]

theorem updateTrip_cons_neg (a : Trip) (l : List Trip) (id : Nat) (s : TripSet)
    (h : ¬(a.id == id) = true) :
    updateTrip (a :: l) id s =
      (a :: (updateTrip l id s).1, (updateTrip l id s).2) := by
  have hp : ¬a.id = id := by simpa using h
  simp [updateTrip, List.find?_cons, hp, -List.find?_map]

theorem updateTrip_found (db : List Trip) (id : Nat) (s : TripSet) (ex : Trip)
    (hex : getTrip db id = some ex) :
    (updateTrip db id s).2 = some (applySet ex s) := by
  induction db with
  | nil => simp [getTrip] at hex
  | cons a l ih =>
    rw [getTrip_cons] at hex
    by_cases h : (a.id == id) = true
    · rw [if_pos h] at hex
      obtain rfl : a = ex := Option.some_injective _ hex
      rw [updateTrip_cons_pos a l id s h]
    · rw [if_neg h] at hex
      rw [updateTrip_cons_neg a l id s h]
      exact ih hex

theorem updateTrip_missing (db : List Trip) (id : Nat) (s : TripSet)
    (hex : getTrip db id = none) :
    updateTrip db id s = (db, none) := by
  induction db with
  | nil => rfl
  | cons a l ih =>
    rw [getTrip_cons] at hex
    by_cases h : (a.id == id) = true
    · rw [if_pos h] at hex; exact absurd hex (by simp)
    · rw [if_neg h] at hex
      rw [updateTrip_cons_neg a l id s h, ih hex]

theorem updateTripHandler_ok (db : List Trip) (role : Role) (id : Nat)
    (input : UpdateInput) (ex : Trip)
    (hex : getTrip db id = some ex)
    (h1 : ¬(role ≠ Role.ADMIN ∧
      (ex.status = TripStatus.COMPLETED ∨ ex.status = TripStatus.SETTLED)))
    (h2 : ¬(role ≠ Role.ADMIN ∧ input.motorOwnerBhada.isSome)) :
    updateTripHandler db (some role) id input =
      (.ok (applySet ex (input.withBalances (nextMotorOwnerBalance input ex)
          (nextPartyBalance input ex))),
        (updateTrip db id (input.withBalances (nextMotorOwnerBalance input ex)
          (nextPartyBalance input ex))).1) := by
  simp only [updateTripHandler, hex]
  rw [if_neg h1, if_neg h2, updateTrip_found db id _ ex hex]

theorem updateTripHandler_ok_inv (db : List Trip) (role : Role) (id : Nat)
    (input : UpdateInput) (t : Trip) (db2 : List Trip)
    (hok : updateTripHandler db (some role) id input = (.ok t, db2)) :
    ∃ ex, getTrip db id = some ex ∧
      t = applySet ex (input.withBalances (nextMotorOwnerBalance input ex)
        (nextPartyBalance input ex)) := by
  cases hg : getTrip db id with
  | none =>
    simp only [updateTripHandler, hg] at hok
    exact absurd hok (by simp)
  | some ex =>
    simp only [updateTripHandler, hg] at hok
    refine ⟨ex, rfl, ?_⟩
    by_cases h1 : role ≠ Role.ADMIN ∧
        (ex.status = TripStatus.COMPLETED ∨ ex.status = TripStatus.SETTLED)
    · rw [if_pos h1] at hok; exact absurd hok (by simp)
    by_cases h2 : role ≠ Role.ADMIN ∧ input.motorOwnerBhada.isSome
    · rw [if_neg h1, if_pos h2] at hok; exact absurd hok (by simp)
    rw [if_neg h1, if_neg h2, updateTrip_found db id _ ex hg] at hok
    have := ((Prod.mk.injEq _ _ _ _).mp hok).1
    exact (UpdateResult.ok.injEq _ _).mp this |>.symm

theorem matchesFilters_empty (t : Trip) : matchesFilters TripFilters.empty t = true := by
  simp [matchesFilters, vehicleCond, tripIdCond, loadedAfterCond, settledCond,
    TripFilters.empty]

theorem length_getTrips_empty (db : List Trip) :
    (getTrips db TripFilters.empty).length = db.length := by
  unfold getTrips
  rw [(List.perm_insertionSort byDateDesc _).length_eq]
  rw [List.filter_eq_self.mpr fun a _ => matchesFilters_empty a]

theorem createTripHandler_some (db : List Trip) (role : Role) (year : Nat)
    (input : CreateInput) :
    createTripHandler db (some role) year input =
      (.created (createdTrip db year input), db ++ [createdTrip db year input]) := by
  simp only [createTripHandler, length_getTrips_empty, createdTrip, createTrip]

theorem mem_getTrips (db : List Trip) (f : TripFilters) (t : Trip) :
    t ∈ getTrips db f ↔ t ∈ db ∧ matchesFilters f t = true := by
  simp [getTrips, List.mem_filter]

theorem tripA_balInv : balInv tripA := by
  norm_num [balInv, jsOr0, tripA]

/-!  Claim theorems. -/

/-- C3: an update request by a caller whose role is not ADMIN against a trip
whose current stored status is COMPLETED or SETTLED is rejected with 403,
whatever the payload, and the stored trips are unchanged (the rejection
happens before any mutation). -/
theorem manager_locked_after_completion
    (db : List Trip) (role : Role) (id : Nat) (input : UpdateInput) (ex : Trip)
    (hrole : role ≠ Role.ADMIN)
    (hex : getTrip db id = some ex)
    (hst : ex.status = TripStatus.COMPLETED ∨ ex.status = TripStatus.SETTLED) :
    updateTripHandler db (some role) id input = (.forbiddenStatus, db) ∧
    UpdateResult.statusCode .forbiddenStatus = 403 := by
  refine ⟨?_, rfl⟩
  simp only [updateTripHandler, hex]
  rw [if_pos ⟨hrole, hst⟩]

/-- Witness for C3: a MANAGER updating the settled `tripB` receives 403 and
the store is unchanged. -/
theorem manager_locked_after_completion_witness :
    updateTripHandler [tripA, tripB] (some Role.MANAGER) 2 noUpdate =
      (.forbiddenStatus, [tripA, tripB]) ∧
    UpdateResult.statusCode .forbiddenStatus = 403 :=
  manager_locked_after_completion [tripA, tripB] Role.MANAGER 2 noUpdate tripB
    (by decide) rfl (Or.inr rfl)

/-- C4: an update request by a caller whose role is not ADMIN whose payload
includes a motorOwnerBhada value is rejected with 403 whatever the trip's
current status, before any mutation; an ADMIN caller performing the same
update succeeds (HTTP 200). -/
theorem manager_cannot_edit_bhada
    (db : List Trip) (role : Role) (id : Nat) (input : UpdateInput) (ex : Trip)
    (hex : getTrip db id = some ex)
    (hbhada : input.motorOwnerBhada.isSome = true) :
    (role ≠ Role.ADMIN →
      ((updateTripHandler db (some role) id input).1).statusCode = 403 ∧
      (updateTripHandler db (some role) id input).2 = db) ∧
    (∃ t db2, updateTripHandler db (some Role.ADMIN) id input = (.ok t, db2) ∧
      UpdateResult.statusCode (.ok t) = 200) := by
  constructor
  · intro hrole
    by_cases hc : ex.status = TripStatus.COMPLETED ∨ ex.status = TripStatus.SETTLED
    · have h := manager_locked_after_completion db role id input ex hrole hex hc
      rw [h.1]
      exact ⟨rfl, rfl⟩
    · simp only [updateTripHandler, hex]
      rw [if_neg fun h => hc h.2, if_pos ⟨hrole, hbhada⟩]
      exact ⟨rfl, rfl⟩
  · exact ⟨_, _,
      updateTripHandler_ok db Role.ADMIN id input ex hex
        (fun h => h.1 rfl) (fun h => h.1 rfl), rfl⟩

/-- Witness for C4: a MANAGER sending a bhada value for the pending `tripA`
receives 403 with the store unchanged, while an ADMIN succeeds. -/
theorem manager_cannot_edit_bhada_witness :
    ((updateTripHandler [tripA, tripB] (some Role.MANAGER) 1 bhadaOnly).1).statusCode = 403 ∧
    (updateTripHandler [tripA, tripB] (some Role.MANAGER) 1 bhadaOnly).2 = [tripA, tripB] ∧
    (∃ t db2, updateTripHandler [tripA, tripB] (some Role.ADMIN) 1 bhadaOnly = (.ok t, db2) ∧
      UpdateResult.statusCode (.ok t) = 200) :=
  have h := manager_cannot_edit_bhada [tripA, tripB] Role.MANAGER 1 bhadaOnly tripA
    rfl rfl
  ⟨(h.1 (by decide)).1, (h.1 (by decide)).2, h.2⟩

/-- C8: the ledger update merges only the supplied fields into the existing
record (each absent field keeps its stored value, the identifier and trip code
are untouched), and a request for an identifier that does not exist changes
nothing and is answered with NotFound (HTTP 404). -/
theorem updateTrip_merge_or_notFound :
    (∀ (db : List Trip) (id : Nat) (s : TripSet), getTrip db id = none →
      updateTrip db id s = (db, none) ∧
      (∀ (role : Role) (input : UpdateInput),
        updateTripHandler db (some role) id input = (.notFound, db) ∧
        UpdateResult.statusCode .notFound = 404)) ∧
    (∀ (db : List Trip) (id : Nat) (s : TripSet) (ex : Trip),
      getTrip db id = some ex →
      (updateTrip db id s).2 = some (applySet ex s) ∧
      (applySet ex s).id = ex.id ∧
      (applySet ex s).tripId = ex.tripId ∧
      (applySet ex s).vehicleNumber = s.vehicleNumber.getD ex.vehicleNumber ∧
      (applySet ex s).vehicleType = s.vehicleType.getD ex.vehicleType ∧
      (applySet ex s).loadingDate = s.loadingDate.getD ex.loadingDate ∧
      (applySet ex s).status = s.status.getD ex.status ∧
      (applySet ex s).partyName = coalesce s.partyName ex.partyName ∧
      (applySet ex s).partyFreight = coalesce s.partyFreight ex.partyFreight ∧
      (applySet ex s).partyAdvance = coalesce s.partyAdvance ex.partyAdvance ∧
      (applySet ex s).partyBalance = s.partyBalance ∧
      (applySet ex s).motorOwnerName = coalesce s.motorOwnerName ex.motorOwnerName ∧
      (applySet ex s).motorOwnerBhada = coalesce s.motorOwnerBhada ex.motorOwnerBhada ∧
      (applySet ex s).motorOwnerAdvance = coalesce s.motorOwnerAdvance ex.motorOwnerAdvance ∧
      (applySet ex s).motorOwnerBalance = s.motorOwnerBalance) := by
  constructor
  · intro db id s hmiss
    refine ⟨updateTrip_missing db id s hmiss, fun role input => ⟨?_, rfl⟩⟩
    simp only [updateTripHandler, hmiss]
  · intro db id s ex hex
    exact ⟨updateTrip_found db id s ex hex, rfl, rfl, rfl, rfl, rfl, rfl, rfl, rfl,
      rfl, rfl, rfl, rfl, rfl, rfl⟩

/-- Witness for C8: id 99 does not exist, so the ledger is unchanged and the
route answers 404; for the existing id 1, the updated row is the merge. -/
theorem updateTrip_merge_or_notFound_witness :
    (updateTrip [tripA] 99 advOnlySet = ([tripA], none) ∧
      updateTripHandler [tripA] (some Role.MANAGER) 99 noUpdate = (.notFound, [tripA])) ∧
    (updateTrip [tripA] 1 advOnlySet).2 = some (applySet tripA advOnlySet) :=
  have h1 := updateTrip_merge_or_notFound.1 [tripA] 99 advOnlySet rfl
  have h2 := updateTrip_merge_or_notFound.2 [tripA] 1 advOnlySet tripA rfl
  ⟨⟨h1.1, (h1.2 Role.MANAGER noUpdate).1⟩, h2.1⟩

/-- C10: the create-trip route enforces only authentication and consults no
role or status policy: the outcome is the same for every authenticated role,
any payload (a motorOwnerBhada value included) is accepted with 201 and its
bhada stored as supplied, and an unauthenticated caller receives 401. -/
theorem create_trip_role_agnostic :
    (∀ (db : List Trip) (year : Nat) (input : CreateInput) (r1 r2 : Role),
      createTripHandler db (some r1) year input =
        createTripHandler db (some r2) year input) ∧
    (∀ (db : List Trip) (year : Nat) (input : CreateInput) (role : Role),
      ∃ t db2, createTripHandler db (some role) year input = (.created t, db2) ∧
        CreateResult.statusCode (.created t) = 201 ∧
        t.motorOwnerBhada = input.motorOwnerBhada ∧
        db2 = db ++ [t]) ∧
    (∀ (db : List Trip) (year : Nat) (input : CreateInput),
      createTripHandler db none year input = (.unauthenticated, db) ∧
      CreateResult.statusCode .unauthenticated = 401) := by
  refine ⟨fun db year input r1 r2 => rfl, fun db year input role => ?_,
    fun db year input => ⟨rfl, rfl⟩⟩
  exact ⟨createdTrip db year input, db ++ [createdTrip db year input],
    createTripHandler_some db role year input, rfl, rfl, rfl⟩

/-- C1: in a successful trip update, a balance is recomputed exactly when at
least one of its two inputs is present in the partial payload; when neither is
present the stored balance is carried forward unchanged, and when recomputing,
each operand independently takes the supplied new value if present, else the
existing stored value. -/
theorem update_recompute_iff_input_present
    (db : List Trip) (role : Role) (id : Nat) (input : UpdateInput)
    (ex t : Trip) (db2 : List Trip)
    (hex : getTrip db id = some ex)
    (hok : updateTripHandler db (some role) id input = (.ok t, db2)) :
    (input.motorOwnerBhada = none ∧ input.motorOwnerAdvance = none →
      t.motorOwnerBalance = ex.motorOwnerBalance) ∧
    (input.motorOwnerBhada.isSome = true ∨ input.motorOwnerAdvance.isSome = true →
      t.motorOwnerBalance =
        some (operand input.motorOwnerBhada ex.motorOwnerBhada -
          operand input.motorOwnerAdvance ex.motorOwnerAdvance)) ∧
    (input.partyFreight = none ∧ input.partyAdvance = none →
      t.partyBalance = ex.partyBalance) ∧
    (input.partyFreight.isSome = true ∨ input.partyAdvance.isSome = true →
      t.partyBalance =
        some (operand input.partyFreight ex.partyFreight -
          operand input.partyAdvance ex.partyAdvance)) := by
  obtain ⟨ex2, hg, ht⟩ := updateTripHandler_ok_inv db role id input t db2 hok
  rw [hex] at hg
  obtain rfl : ex = ex2 := Option.some_injective _ hg
  subst ht
  refine ⟨?_, ?_, ?_, ?_⟩
  · rintro ⟨hb, ha⟩
    simp [applySet, UpdateInput.withBalances, nextMotorOwnerBalance, hb, ha]
  · intro hor
    have hcond : (input.motorOwnerBhada.isSome || input.motorOwnerAdvance.isSome) = true := by
      rcases hor with h | h <;> simp [h]
    simp [applySet, UpdateInput.withBalances, nextMotorOwnerBalance, hcond, operand_eq]
  · rintro ⟨hf, ha⟩
    simp [applySet, UpdateInput.withBalances, nextPartyBalance, hf, ha]
  · intro hor
    have hcond : (input.partyFreight.isSome || input.partyAdvance.isSome) = true := by
      rcases hor with h | h <;> simp [h]
    simp [applySet, UpdateInput.withBalances, nextPartyBalance, hcond, operand_eq]

/-- Witness for C1: updating `tripA` with only a motor-owner advance
recomputes the motor-owner balance from the supplied advance and the stored
bhada, and carries the party balance forward unchanged. -/
theorem update_recompute_iff_input_present_witness :
    tripA10.motorOwnerBalance =
      some (operand advOnly.motorOwnerBhada tripA.motorOwnerBhada -
        operand advOnly.motorOwnerAdvance tripA.motorOwnerAdvance) ∧
    tripA10.partyBalance = tripA.partyBalance :=
  have h := update_recompute_iff_input_present [tripA] Role.ADMIN 1 advOnly
    tripA tripA10 (updateTrip [tripA] 1 advOnlySet).1 rfl
    (updateTripHandler_ok [tripA] Role.ADMIN 1 advOnly tripA rfl
      (fun hc => hc.1 rfl) (fun hc => hc.1 rfl))
  ⟨h.2.1 (Or.inr rfl), h.2.2.1 ⟨rfl, rfl⟩⟩

/-- C2: after every successful create, the stored balances are recomputed
from the payload's freight/bhada and advances (absent inputs read as zero) and
satisfy the balance invariant; after every successful update of a trip that
satisfied the invariant, the stored trip satisfies it again; and balance
values supplied by the caller never influence the result of either route. -/
theorem balances_always_derived :
    (∀ (db : List Trip) (role : Role) (year : Nat) (input : CreateInput)
        (t : Trip) (db2 : List Trip),
      createTripHandler db (some role) year input = (.created t, db2) →
      t.partyFreight = input.partyFreight ∧
      t.partyAdvance = input.partyAdvance ∧
      t.partyBalance = some (jsOr0 input.partyFreight - jsOr0 input.partyAdvance) ∧
      t.motorOwnerBhada = input.motorOwnerBhada ∧
      t.motorOwnerAdvance = input.motorOwnerAdvance ∧
      t.motorOwnerBalance =
        some (jsOr0 input.motorOwnerBhada - jsOr0 input.motorOwnerAdvance) ∧
      balInv t) ∧
    (∀ (db : List Trip) (role : Role) (id : Nat) (input : UpdateInput)
        (ex t : Trip) (db2 : List Trip),
      getTrip db id = some ex → balInv ex →
      updateTripHandler db (some role) id input = (.ok t, db2) →
      balInv t) ∧
    (∀ (db : List Trip) (caller : Option Role) (year : Nat) (input : CreateInput)
        (pb mb : Option ℚ),
      createTripHandler db caller year
          { input with partyBalance := pb, motorOwnerBalance := mb } =
        createTripHandler db caller year input) ∧
    (∀ (db : List Trip) (caller : Option Role) (id : Nat) (input : UpdateInput)
        (pb mb : Option ℚ),
      updateTripHandler db caller id
          { input with partyBalance := pb, motorOwnerBalance := mb } =
        updateTripHandler db caller id input) := by
  refine ⟨?_, ?_, fun db caller year input pb mb => rfl,
    fun db caller id input pb mb => rfl⟩
  · intro db role year input t db2 hok
    rw [createTripHandler_some db role year input] at hok
    obtain ⟨h1, -⟩ := (Prod.mk.injEq _ _ _ _).mp hok
    obtain rfl : createdTrip db year input = t := (CreateResult.created.injEq _ _).mp h1
    refine ⟨rfl, rfl, rfl, rfl, rfl, rfl, ?_, ?_⟩ <;>
      simp [balInv, createdTrip, createTrip, CreateInput.withOverrides, jsOr0]
  · intro db role id input ex t db2 hex hinv hok
    obtain ⟨ex2, hg, ht⟩ := updateTripHandler_ok_inv db role id input t db2 hok
    rw [hex] at hg
    obtain rfl : ex = ex2 := Option.some_injective _ hg
    subst ht
    obtain ⟨hinv1, hinv2⟩ := hinv
    simp only [jsOr0] at hinv1 hinv2
    constructor
    · cases hf : input.partyFreight <;> cases ha : input.partyAdvance <;>
        simp [balInv, applySet, UpdateInput.withBalances, nextPartyBalance,
          coalesce, jsOr0, hf, ha, hinv1]
    · cases hb : input.motorOwnerBhada <;> cases ha : input.motorOwnerAdvance <;>
        simp [balInv, applySet, UpdateInput.withBalances, nextMotorOwnerBalance,
          coalesce, jsOr0, hb, ha, hinv2]

/-- Witness for C2: the balance invariant holds for the trip stored by a
concrete create and for `tripA` after a concrete update, and the stored
create balances come from freight/advance, not from the payload's balance
fields. -/
theorem balances_always_derived_witness :
    (createdTrip [] 2025 sampleCreate).partyBalance =
      some (jsOr0 sampleCreate.partyFreight - jsOr0 sampleCreate.partyAdvance) ∧
    balInv (createdTrip [] 2025 sampleCreate) ∧
    balInv tripA10 :=
  have hc := balances_always_derived.1 [] Role.MANAGER 2025 sampleCreate
    (createdTrip [] 2025 sampleCreate) ([] ++ [createdTrip [] 2025 sampleCreate])
    (createTripHandler_some [] Role.MANAGER 2025 sampleCreate)
  have hu := balances_always_derived.2.1 [tripA] Role.ADMIN 1 advOnly tripA tripA10
    (updateTrip [tripA] 1 advOnlySet).1 rfl tripA_balInv
    (updateTripHandler_ok [tripA] Role.ADMIN 1 advOnly tripA rfl
      (fun hc => hc.1 rfl) (fun hc => hc.1 rfl))
  ⟨hc.2.2.1, hc.2.2.2.2.2.2, hu⟩

/-- C5: listing membership is exactly "stored and passing every supplied
condition" (supplied filters are conjoined); with `settled=true` every listed
trip has status SETTLED, with `settled=false` none does, with the filter
absent the status is not consulted; and the result is ordered by loading
date, most recent first. -/
theorem getTrips_settled_filter_and_order :
    (∀ (db : List Trip) (f : TripFilters) (t : Trip),
      t ∈ getTrips db f ↔
        t ∈ db ∧ vehicleCond f t = true ∧ tripIdCond f t = true ∧
          loadedAfterCond f t = true ∧ settledCond f t = true) ∧
    (∀ (db : List Trip) (f : TripFilters) (t : Trip), f.settled = some true →
      t ∈ getTrips db f → t.status = TripStatus.SETTLED) ∧
    (∀ (db : List Trip) (f : TripFilters) (t : Trip), f.settled = some false →
      t ∈ getTrips db f → t.status ≠ TripStatus.SETTLED) ∧
    (∀ (db : List Trip) (f : TripFilters) (t : Trip), f.settled = none →
      (t ∈ getTrips db f ↔
        t ∈ db ∧ vehicleCond f t = true ∧ tripIdCond f t = true ∧
          loadedAfterCond f t = true)) ∧
    (∀ (db : List Trip) (f : TripFilters),
      List.Sorted byDateDesc (getTrips db f)) := by
  have hmem : ∀ (db : List Trip) (f : TripFilters) (t : Trip),
      t ∈ getTrips db f ↔
        t ∈ db ∧ vehicleCond f t = true ∧ tripIdCond f t = true ∧
          loadedAfterCond f t = true ∧ settledCond f t = true := by
    intro db f t
    rw [mem_getTrips]
    simp [matchesFilters, Bool.and_eq_true, and_assoc]
  refine ⟨hmem, ?_, ?_, ?_, ?_⟩
  · intro db f t hs hm
    have h := ((hmem db f t).mp hm).2.2.2.2
    simpa [settledCond, hs] using h
  · intro db f t hs hm
    have h := ((hmem db f t).mp hm).2.2.2.2
    simpa [settledCond, hs] using h
  · intro db f t hn
    rw [hmem db f t]
    simp [settledCond, hn]
  · intro db f
    exact List.sorted_insertionSort byDateDesc _

/-- Witness for C5: with the filter `settled=true`, the settled `tripB` is
listed and the theorem yields its status. -/
theorem getTrips_settled_filter_and_order_witness :
    tripB.status = TripStatus.SETTLED ∧
    tripB ∈ getTrips [tripA, tripB, tripC] ⟨none, none, none, some true⟩ :=
  have hm : tripB ∈ getTrips [tripA, tripB, tripC] ⟨none, none, none, some true⟩ := by
    decide
  ⟨getTrips_settled_filter_and_order.2.1 [tripA, tripB, tripC]
    ⟨none, none, none, some true⟩ tripB rfl hm, hm⟩

/-- C6: a stored trip's generated code is `{year}_{count of existing trips
plus one}`, and two sequential creates in the same year with no intervening
writes receive `{year}_{n}` and `{year}_{n+1}`. -/
theorem trip_code_sequential :
    (∀ (db : List Trip) (role : Role) (year : Nat) (input : CreateInput)
        (t : Trip) (db2 : List Trip),
      createTripHandler db (some role) year input = (.created t, db2) →
      t.tripId = toString year ++ "_" ++ toString (db.length + 1) ∧
      db2.length = db.length + 1) ∧
    (∀ (db : List Trip) (r1 r2 : Role) (year : Nat) (i1 i2 : CreateInput)
        (t1 t2 : Trip) (d1 d2 : List Trip),
      createTripHandler db (some r1) year i1 = (.created t1, d1) →
      createTripHandler d1 (some r2) year i2 = (.created t2, d2) →
      t1.tripId = toString year ++ "_" ++ toString (db.length + 1) ∧
      t2.tripId = toString year ++ "_" ++ toString (db.length + 2)) := by
  have h1 : ∀ (db : List Trip) (role : Role) (year : Nat) (input : CreateInput)
      (t : Trip) (db2 : List Trip),
      createTripHandler db (some role) year input = (.created t, db2) →
      t.tripId = toString year ++ "_" ++ toString (db.length + 1) ∧
      db2.length = db.length + 1 := by
    intro db role year input t db2 hok
    rw [createTripHandler_some db role year input] at hok
    obtain ⟨ha, hb⟩ := (Prod.mk.injEq _ _ _ _).mp hok
    obtain rfl : createdTrip db year input = t := (CreateResult.created.injEq _ _).mp ha
    subst hb
    exact ⟨rfl, by simp⟩
  refine ⟨h1, ?_⟩
  intro db r1 r2 year i1 i2 t1 t2 d1 d2 hc1 hc2
  obtain ⟨e1, l1⟩ := h1 db r1 year i1 t1 d1 hc1
  obtain ⟨e2, l2⟩ := h1 d1 r2 year i2 t2 d2 hc2
  refine ⟨e1, ?_⟩
  rw [e2, l1]

/-- Witness for C6: two sequential creates against an empty ledger in 2025
yield trip codes `2025_1` and `2025_2`. -/
theorem trip_code_sequential_witness :
    wCreate1.tripId = "2025_1" ∧ wCreate2.tripId = "2025_2" :=
  have h := trip_code_sequential.2 [] Role.ADMIN Role.MANAGER 2025
    sampleCreate sampleCreate wCreate1 wCreate2 wDb1 (wDb1 ++ [wCreate2])
    (createTripHandler_some [] Role.ADMIN 2025 sampleCreate)
    (createTripHandler_some wDb1 Role.MANAGER 2025 sampleCreate)
  ⟨by rw [h.1]; rfl, by rw [h.2]; rfl⟩

/-- C7: motor-owner analytics ignores every trip whose vehicle type is not
MARKET, produces one row per distinct owner name among MARKET trips carrying
the trip count and the sums of bhada, advance and balance of that owner's
MARKET trips, and labels a row whose owner name is absent with the literal
`"Unknown"`. -/
theorem motor_owner_analytics_market_only :
    (∀ (db : List Trip) (t : Trip), t.vehicleType ≠ VehicleType.MARKET →
      getMotorOwnerAnalytics (db ++ [t]) = getMotorOwnerAnalytics db) ∧
    (∀ db : List Trip,
      (getMotorOwnerAnalytics db).length =
        ((marketTrips db).map Trip.motorOwnerName).dedup.length ∧
      ((marketTrips db).map Trip.motorOwnerName).dedup.Nodup) ∧
    (∀ (db : List Trip) (n : Option String),
      n ∈ ((marketTrips db).map Trip.motorOwnerName).dedup →
      ownerRow (marketTrips db) n ∈ getMotorOwnerAnalytics db) ∧
    (∀ (db : List Trip) (r : MotorOwnerRow), r ∈ getMotorOwnerAnalytics db →
      ∃ n, n ∈ (marketTrips db).map Trip.motorOwnerName ∧
        r.name = ownerLabel n ∧
        (n = none → r.name = "Unknown") ∧
        r.tripsDone = ((marketTrips db).filter fun x => x.motorOwnerName == n).length ∧
        r.totalBhada = (((marketTrips db).filter fun x => x.motorOwnerName == n).map
          fun x => jsOr0 x.motorOwnerBhada).sum ∧
        r.paid = (((marketTrips db).filter fun x => x.motorOwnerName == n).map
          fun x => jsOr0 x.motorOwnerAdvance).sum ∧
        r.balance = (((marketTrips db).filter fun x => x.motorOwnerName == n).map
          fun x => jsOr0 x.motorOwnerBalance).sum) := by
  refine ⟨?_, ?_, ?_, ?_⟩
  · intro db t h
    have hm : marketTrips (db ++ [t]) = marketTrips db := by
      simp [marketTrips, List.filter_append, h]
    unfold getMotorOwnerAnalytics
    rw [hm]
  · intro db
    exact ⟨by simp [getMotorOwnerAnalytics], List.nodup_dedup _⟩
  · intro db n hn
    exact List.mem_map_of_mem _ hn
  · intro db r hr
    obtain ⟨n, hn, rfl⟩ := List.mem_map.mp hr
    exact ⟨n, List.mem_dedup.mp hn, rfl, fun h => by rw [h]; rfl, rfl, rfl, rfl, rfl⟩

/-- Witness for C7: appending the non-MARKET `tripB` leaves the analytics
unchanged, and the unnamed owner of the MARKET `tripC` is reported as a row
labelled `"Unknown"`. -/
theorem motor_owner_analytics_market_only_witness :
    getMotorOwnerAnalytics [tripA, tripB] = getMotorOwnerAnalytics [tripA] ∧
    ownerRow (marketTrips [tripC]) none ∈ getMotorOwnerAnalytics [tripC] ∧
    (ownerRow (marketTrips [tripC]) none).name = "Unknown" :=
  ⟨motor_owner_analytics_market_only.1 [tripA] tripB (by decide),
    motor_owner_analytics_market_only.2.2.1 [tripC] none (by decide),
    rfl⟩

/-- C9: a login with correct credentials is answered 200 with the user record
and an established session, and every failed login is answered by the same
bare 401 response, so a missing username and a wrong password are
observationally indistinguishable to the caller. -/
theorem login_success_and_uniform_failure
    (kdf : String → String → String) (userdb : List User) :
    (∀ (username password : String) (u : User),
      userdb.find? (fun x => x.username == username) = some u →
      comparePasswords kdf password u.password = true →
      loginHandler kdf userdb username password =
        { statusCode := 200, body := some u, session := some u.id }) ∧
    (∀ u1 p1 u2 p2 : String,
      (verifyLocal kdf userdb u1 p1).isFail = true →
      (verifyLocal kdf userdb u2 p2).isFail = true →
      loginHandler kdf userdb u1 p1 = loginHandler kdf userdb u2 p2 ∧
      (loginHandler kdf userdb u1 p1).statusCode = 401) := by
  constructor
  · intro username password u hfind hcmp
    simp [loginHandler, verifyLocal, hfind, hcmp]
  · have e401 : ∀ u1 p1 : String, (verifyLocal kdf userdb u1 p1).isFail = true →
        loginHandler kdf userdb u1 p1 =
          { statusCode := 401, body := none, session := none } := by
      intro u1 p1 hf
      unfold loginHandler
      cases hv : verifyLocal kdf userdb u1 p1 with
      | failed m => rfl
      | success u =>
        rw [hv] at hf
        exact absurd hf (by simp [AuthOutcome.isFail])
    intro u1 p1 u2 p2 hf1 hf2
    exact ⟨(e401 u1 p1 hf1).trans (e401 u2 p2 hf2).symm, by rw [e401 u1 p1 hf1]⟩

/-- Witness for C9: against a store holding one admin, the correct password
logs in with 200 and a session, while an unknown username and a wrong
password produce identical 401 responses. -/
theorem login_success_and_uniform_failure_witness :
    loginHandler kdf0 [userAdmin] "admin" "pw" =
      { statusCode := 200, body := some userAdmin, session := some userAdmin.id } ∧
    loginHandler kdf0 [userAdmin] "ghost" "pw" =
      loginHandler kdf0 [userAdmin] "admin" "bad" ∧
    (loginHandler kdf0 [userAdmin] "ghost" "pw").statusCode = 401 :=
  have h := login_success_and_uniform_failure kdf0 [userAdmin]
  have hf := h.2 "ghost" "pw" "admin" "bad" (by decide) (by decide)
  ⟨h.1 "admin" "pw" userAdmin rfl (by decide), hf.1, hf.2⟩

end TMS
